import Mathlib

/-!
Verification of the orchestrator agent-to-agent delegation layer
(`orchestrator/orchestrator_agent/agent.py`).

The embedding models:
* the discovery loop `OrchestratorAgent._async_init_components`, which
  fetches an `AgentCard` per address and fills the two registry dicts
  `self.remote_agent_connections` and `self.cards`;
* the delegation tool `OrchestratorAgent.send_message`, including its
  uuid defaults for `task_id` / `context_id`, the unknown-agent
  `ValueError`, the success/non-success envelope check and the
  artifact-part extraction;
* the event mapping of `OrchestratorAgent.stream`.

Python dicts are embedded as association lists with insert-or-overwrite
semantics (overwrite keeps the entry position, insertion appends, as in
CPython).  `uuid.uuid4()` is embedded as a fresh-name supply: a call site
receives the current counter value and distinct counters yield distinct
identifier strings; consecutive calls of one `send_message` invocation
consume consecutive counters.
-/

namespace Siruami

/-- A remote agent's discovery descriptor (the fields of `a2a.types.AgentCard`
that the orchestrator reads: `card.name`, `card.description`, plus the
address it was fetched from). -/
structure AgentCard where
  name : String
  description : String
  url : String
deriving DecidableEq

/-- `RemoteAgentConnections(agent_card=card, agent_url=address)` — the
per-peer connection object stored in `self.remote_agent_connections`. -/
structure RemoteAgentConnections where
  agent_card : AgentCard
  agent_url : String
deriving DecidableEq

/-- Python-dict insertion on an association list: overwriting an existing
key keeps its position, a new key is appended (CPython dict semantics). -/
def dictInsert (k : String) (v : α) : List (String × α) → List (String × α)
  | [] => [(k, v)]
  | (k₂, v₂) :: rest =>
      if k₂ = k then (k, v) :: rest else (k₂, v₂) :: dictInsert k v rest

/-- Python `d.get(k)` / `k in d` on the association-list embedding. -/
def dictGet (k : String) : List (String × α) → Option α
  | [] => none
  | (k₂, v₂) :: rest => if k₂ = k then some v₂ else dictGet k rest

/-- Outcome of `A2ACardResolver.get_agent_card()` for one address:
either a card, or one of the two caught exception classes
(`httpx.ConnectError`, any other `Exception`, e.g. a malformed card). -/
inductive FetchOutcome where
  | ok (card : AgentCard)
  | connectError (msg : String)
  | otherError (msg : String)
deriving DecidableEq

/-- The two registry dicts of `OrchestratorAgent` that discovery fills. -/
structure OrchestratorState where
  remote_agent_connections : List (String × RemoteAgentConnections)
  cards : List (String × AgentCard)
deriving DecidableEq

/-- `OrchestratorAgent.__init__` starts with both dicts empty. -/
def initialOrchestratorState : OrchestratorState :=
  { remote_agent_connections := [], cards := [] }

/-- One iteration of the discovery loop body, with its `try`/`except`
structure made explicit: an uncaught exception would be an `Except.error`,
and both `except` arms print and fall through to the next address. -/
def initStepE (s : OrchestratorState) (address : String)
    (outcome : FetchOutcome) : Except String OrchestratorState :=
  match outcome with
  | .ok card =>
      .ok { remote_agent_connections :=
              dictInsert card.name ⟨card, address⟩ s.remote_agent_connections,
            cards := dictInsert card.name card s.cards }
  | .connectError _ => .ok s
  | .otherError _ => .ok s

/-- One iteration of the discovery loop, with the exception arms already
resolved (they leave the state unchanged). -/
def initStep (s : OrchestratorState) (address : String)
    (outcome : FetchOutcome) : OrchestratorState :=
  match outcome with
  | .ok card =>
      { remote_agent_connections :=
          dictInsert card.name ⟨card, address⟩ s.remote_agent_connections,
        cards := dictInsert card.name card s.cards }
  | .connectError _ => s
  | .otherError _ => s

/-- `OrchestratorAgent._async_init_components`: the loop over
`remote_agent_addresses`, where `fetch` gives each address's
card-resolution outcome. -/
def asyncInitComponents (s : OrchestratorState) (fetch : String → FetchOutcome)
    (addresses : List String) : OrchestratorState :=
  addresses.foldl (fun st a => initStep st a (fetch a)) s

/-- The discovery loop in the exception monad: `Except.error` would mean an
exception escaping the loop. -/
def asyncInitComponentsE (fetch : String → FetchOutcome) :
    OrchestratorState → List String → Except String OrchestratorState
  | s, [] => .ok s
  | s, a :: rest =>
      match initStepE s a (fetch a) with
      | .ok s₂ => asyncInitComponentsE fetch s₂ rest
      | .error e => .error e

theorem initStepE_eq_ok (s : OrchestratorState) (a : String) (o : FetchOutcome) :
    initStepE s a o = .ok (initStep s a o) := by
  cases o <;> rfl

theorem asyncInitComponentsE_eq_ok (fetch : String → FetchOutcome)
    (addresses : List String) (s : OrchestratorState) :
    asyncInitComponentsE fetch s addresses = .ok (asyncInitComponents s fetch addresses) := by
  induction addresses generalizing s with
  | nil => rfl
  | cons a rest ih =>
      simp only [asyncInitComponentsE, initStepE_eq_ok, asyncInitComponents, List.foldl_cons]
      exact ih _

theorem dictGet_dictInsert (k k₂ : String) (v : α) (l : List (String × α)) :
    dictGet k₂ (dictInsert k v l) = if k = k₂ then some v else dictGet k₂ l := by
  induction l with
  | nil => simp [dictInsert, dictGet]
  | cons p rest ih =>
      obtain ⟨k₃, v₃⟩ := p
      by_cases h₃ : k₃ = k
      · subst h₃
        by_cases h₂ : k₃ = k₂
        · subst h₂; simp [dictInsert, dictGet]
        · have h₂sym : ¬ k₂ = k₃ := fun h => h₂ h.symm
          simp [dictInsert, dictGet, h₂, h₂sym]
      · by_cases h₂ : k₃ = k₂
        · subst h₂
          have hne : ¬ k = k₃ := fun h => h₃ h.symm
          simp [dictInsert, dictGet, h₃, hne]
        · simp [dictInsert, dictGet, h₃, h₂, ih]

/-- A `{type, text}` part dict, as built on line 213 of `agent.py` and as the
artifact parts round-trip through `model_dump_json` / `json.loads`. -/
structure Part where
  type : String
  text : String
deriving DecidableEq

/-- One artifact of a completed `Task`: a dict whose `parts` key holds a list
of part dicts (an absent or empty `parts` list is falsy in Python). -/
structure Artifact where
  parts : List Part
deriving DecidableEq

/-- The `result` of a success envelope when it is a `Task`: after
`model_dump_json(exclude_none=True)`, an artifacts list of `None` vanishes
from the JSON, so `artifacts` is embedded as an `Option`. -/
structure Task where
  artifacts : Option (List Artifact)
deriving DecidableEq

/-- The `result` field inside a `SendMessageSuccessResponse`: either a `Task`
or some other result type (e.g. a `Message`), which fails the second
`isinstance` check on line 228. -/
inductive SuccessResult where
  | task (t : Task)
  | other (info : String)
deriving DecidableEq

/-- `send_response.root`: either a `SendMessageSuccessResponse` or a
non-success envelope (e.g. a `JSONRPCErrorResponse`). -/
inductive SendResponseRoot where
  | success (result : SuccessResult)
  | nonSuccess (info : String)
deriving DecidableEq

/-- What the network did to one delegation request: delivered some response
envelope, or failed at the transport level. -/
inductive TransportOutcome where
  | delivered (root : SendResponseRoot)
  | timeout (msg : String)
  | connectionRefused (msg : String)
  | malformedBody (msg : String)
deriving DecidableEq

/-- Modelled from the spec: `remote_agent_connection.py` (the
`RemoteAgentConnections.send_message` wire call used on line 223 of
`agent.py`) is not part of the provided sources.  Per spec §4.2, transport
errors (timeout, connection refused, malformed response body) are caught
locally inside the send operation and converted to a Failure — here a
non-success envelope — rather than propagated as exceptions. -/
def remoteSendMessage : TransportOutcome → SendResponseRoot
  | .delivered root => root
  | .timeout m => .nonSuccess m
  | .connectionRefused m => .nonSuccess m
  | .malformedBody m => .nonSuccess m

/-- The `uuid.uuid4()` supply: the n-th call of the process returns a fresh
identifier string, distinct for distinct n. -/
def freshUuid (n : Nat) : String := "uuid4-" ++ toString n

/-- The wire message built on lines 205-218: `task_id` and `context_id`
come from `tool_context.state` when present; the `str(uuid.uuid4())`
defaults are evaluated eagerly by Python, so one call consumes uuid
counters `n`, `n+1`, `n+2` for `task_id`, `context_id`, `message_id`. -/
structure MessagePayload where
  role : String
  partType : String
  text : String
  messageId : String
  taskId : String
  contextId : String
deriving DecidableEq

def buildPayload (state : List (String × String)) (uuidCounter : Nat)
    (task : String) : MessagePayload :=
  { role := "user"
    partType := "text"
    text := task
    taskId := (dictGet "task_id" state).getD (freshUuid uuidCounter)
    contextId := (dictGet "context_id" state).getD (freshUuid (uuidCounter + 1))
    messageId := freshUuid (uuidCounter + 2) }

/-- The `ValueError` raised on line 198 for an unregistered agent name
(its Python message also interpolates the list of available agents). -/
inductive SendError where
  | valueError (msg : String)
deriving DecidableEq

def unknownAgentMessage (agent_name : String)
    (conns : List (String × RemoteAgentConnections)) : String :=
  "Agent " ++ agent_name ++ " not found. Available agents: "
    ++ String.intercalate ", " (conns.map Prod.fst)

/-- The normal return value of `send_message`: the error string of line 230,
or the extracted `resp` list of lines 235-240. -/
inductive SendResult where
  | errorMessage (s : String)
  | parts (resp : List Part)
deriving DecidableEq

def errorResponseMessage : String :=
  "Error: Failed to get a valid response from the agent."

/-- Lines 235-240: walk `result.artifacts` of the reparsed JSON and extend
`resp` with each artifact's `parts`; both `if` guards are Python truthiness
checks on the lists. -/
def extractParts (t : Task) : List Part :=
  match t.artifacts with
  | none => []
  | some arts =>
      if arts = [] then []
      else
        arts.foldl
          (fun resp artifact =>
            if artifact.parts = [] then resp else resp ++ artifact.parts)
          []

instance exceptDecEq {ε α : Type} [DecidableEq ε] [DecidableEq α] :
    DecidableEq (Except ε α)
  | .error e₁, .error e₂ =>
      if h : e₁ = e₂ then .isTrue (by rw [h])
      else .isFalse (by intro hc; cases hc; exact h rfl)
  | .error _, .ok _ => .isFalse (by intro hc; cases hc)
  | .ok _, .error _ => .isFalse (by intro hc; cases hc)
  | .ok a₁, .ok a₂ =>
      if h : a₁ = a₂ then .isTrue (by rw [h])
      else .isFalse (by intro hc; cases hc; exact h rfl)

/-- Everything observable about one `send_message` call: the payload it
sent (if it got that far), its return value or raised exception, and the
tool-context state after the call. -/
structure SendOutcome where
  sent : Option MessagePayload
  result : Except SendError SendResult
  stateAfter : List (String × String)
deriving DecidableEq

/-- `OrchestratorAgent.send_message` (lines 188-240).  `transport` is the
network's behaviour as a function of the sent payload.  The body never
assigns to `tool_context.state`, so every branch leaves the state as it
was. -/
def sendMessage (conns : List (String × RemoteAgentConnections))
    (state : List (String × String)) (uuidCounter : Nat)
    (agent_name task : String)
    (transport : MessagePayload → TransportOutcome) : SendOutcome :=
  match dictGet agent_name conns with
  | none =>
      { sent := none
        result := .error (.valueError (unknownAgentMessage agent_name conns))
        stateAfter := state }
  | some _client =>
      -- the `if not client:` check on line 202 can never fire: a
      -- `RemoteAgentConnections` instance is always truthy in Python
      let payload := buildPayload state uuidCounter task
      match remoteSendMessage (transport payload) with
      | .success (.task t) =>
          { sent := some payload
            result := .ok (.parts (extractParts t))
            stateAfter := state }
      | .success (.other _) =>
          { sent := some payload
            result := .ok (.errorMessage errorResponseMessage)
            stateAfter := state }
      | .nonSuccess _ =>
          { sent := some payload
            result := .ok (.errorMessage errorResponseMessage)
            stateAfter := state }

/-- One event yielded by `self._runner.run_async` as `stream` observes it:
whether `event.is_final_response()` holds, and `event.content.parts` as an
optional list of optional part texts (`p.text` may be `None`). -/
structure AdkEvent where
  final : Bool
  content : Option (List (Option String))
deriving DecidableEq

/-- Python truthiness of `p.text`: not `None` and not the empty string. -/
def truthyText : Option String → Bool
  | some t => t ≠ ""
  | none => false

/-- Lines 169-177: the final-response text is the newline join of the
truthy part texts, guarded by `event.content and event.content.parts and
event.content.parts[0].text`. -/
def finalResponseText (e : AdkEvent) : String :=
  match e.content with
  | none => ""
  | some eventParts =>
      match eventParts.head? with
      | none => ""
      | some p₀ =>
          if truthyText p₀ then
            String.intercalate "\n"
              ((eventParts.filter truthyText).map (fun p => p.getD ""))
          else ""

/-- One dict yielded by `stream`: `is_task_complete` plus its `content`
(terminal case) or `updates` (progress case) string. -/
structure StreamYield where
  is_task_complete : Bool
  payload : String
deriving DecidableEq

def thinkingMessage : String := "The orchestrator agent is thinking..."

/-- The body of the `async for` loop in `stream` (lines 165-186): each
runner event is mapped to exactly one yielded dict. -/
def streamStep (e : AdkEvent) : StreamYield :=
  if e.final then { is_task_complete := true, payload := finalResponseText e }
  else { is_task_complete := false, payload := thinkingMessage }

/-- `OrchestratorAgent.stream` as a function of the runner's event
sequence: the loop yields one dict per event and ends when the runner's
sequence ends. -/
def streamEvents (events : List AdkEvent) : List StreamYield :=
  events.map streamStep

/-! Concrete fixtures used by witnesses and counterexamples. -/

def cardKarley : AgentCard :=
  { name := "Karley Agent"
    description := "An agent that manages the pickleball schedule."
    url := "http://localhost:10002" }

def cardWeather : AgentCard :=
  { name := "Weather_Agent"
    description := "Reports the weather."
    url := "http://localhost:10003" }

/-- A registry holding one discovered connection, as after a successful
discovery of `cardWeather`. -/
def regWeather : List (String × RemoteAgentConnections) :=
  [("Weather_Agent", ⟨cardWeather, "http://localhost:10003"⟩)]

/-- A transport that answers every request with a completed `Task` holding
one text artifact part `72F`. -/
def transport72F : MessagePayload → TransportOutcome :=
  fun _ => .delivered (.success (.task ⟨some [⟨[⟨"text", "72F"⟩]⟩]⟩))

/-! Supporting lemmas about the dict embedding and discovery. -/

theorem dictInsert_map {α β : Type} (g : α → β) (k : String) (v : α)
    (l : List (String × α)) :
    (dictInsert k v l).map (fun p => (p.1, g p.2))
      = dictInsert k (g v) (l.map (fun p => (p.1, g p.2))) := by
  induction l with
  | nil => rfl
  | cons p rest ih =>
      obtain ⟨k₂, v₂⟩ := p
      by_cases h : k₂ = k
      · simp [dictInsert, h]
      · simp [dictInsert, h, ih]

theorem dictGet_map {α β : Type} (g : α → β) (k : String) (l : List (String × α)) :
    dictGet k (l.map (fun p => (p.1, g p.2))) = (dictGet k l).map g := by
  induction l with
  | nil => rfl
  | cons p rest ih =>
      obtain ⟨k₂, v₂⟩ := p
      by_cases h : k₂ = k
      · simp [dictGet, h]
      · simp [dictGet, h, ih]

theorem map_fst_dictInsert {α : Type} (k : String) (v : α) (l : List (String × α)) :
    (dictInsert k v l).map Prod.fst
      = if k ∈ l.map Prod.fst then l.map Prod.fst else l.map Prod.fst ++ [k] := by
  induction l with
  | nil => simp [dictInsert]
  | cons p rest ih =>
      obtain ⟨k₂, v₂⟩ := p
      by_cases h : k₂ = k
      · simp [dictInsert, h]
      · have hne : ¬ k = k₂ := fun hh => h hh.symm
        by_cases hmem : k ∈ rest.map Prod.fst
        · simp [dictInsert, h, hmem, ih, hne]
        · simp [dictInsert, h, hmem, ih, hne]

theorem nodup_map_fst_dictInsert {α : Type} (k : String) (v : α)
    (l : List (String × α)) (h : (l.map Prod.fst).Nodup) :
    ((dictInsert k v l).map Prod.fst).Nodup := by
  rw [map_fst_dictInsert]
  by_cases hmem : k ∈ l.map Prod.fst
  · simpa [hmem] using h
  · simp only [hmem, if_false]
    rw [List.nodup_append]
    exact ⟨h, List.nodup_singleton k,
      fun a ha hb => hmem ((List.mem_singleton.mp hb) ▸ ha)⟩

theorem mem_dictInsert {α : Type} (p : String × α) (k : String) (v : α)
    (l : List (String × α)) (h : p ∈ dictInsert k v l) : p = (k, v) ∨ p ∈ l := by
  induction l with
  | nil => simpa [dictInsert] using h
  | cons q rest ih =>
      obtain ⟨k₂, v₂⟩ := q
      by_cases hk : k₂ = k
      · subst hk
        simp [dictInsert] at h
        rcases h with h₁ | h₁
        · exact Or.inl h₁
        · exact Or.inr (List.mem_cons_of_mem _ h₁)
      · simp only [dictInsert, if_neg hk, List.mem_cons] at h
        rcases h with h₁ | h₁
        · exact Or.inr (by simp [h₁])
        · rcases ih h₁ with h₂ | h₂
          · exact Or.inl h₂
          · exact Or.inr (List.mem_cons_of_mem _ h₂)

theorem dictGet_of_mem_nodup {α : Type} (p : String × α) (l : List (String × α))
    (hnd : (l.map Prod.fst).Nodup) (hmem : p ∈ l) : dictGet p.1 l = some p.2 := by
  induction l with
  | nil => cases hmem
  | cons q rest ih =>
      obtain ⟨k₂, v₂⟩ := q
      rcases List.mem_cons.mp hmem with h | h
      · subst h; simp [dictGet]
      · have hne : k₂ ≠ p.1 := by
          intro he
          have : p.1 ∈ rest.map Prod.fst := List.mem_map_of_mem Prod.fst h
          rw [List.map_cons] at hnd
          exact (List.nodup_cons.mp hnd).1 (he ▸ this)
        have hrest : (rest.map Prod.fst).Nodup := by
          rw [List.map_cons] at hnd
          exact (List.nodup_cons.mp hnd).2
        simp [dictGet, hne, ih hrest h]

/-- The registry invariant maintained by the discovery loop: the
connections dict projected to its cards equals the cards dict, keys are
unique, and each card is stored under its own `card.name`. -/
def RegistryInv (s : OrchestratorState) : Prop :=
  s.remote_agent_connections.map (fun q => (q.1, q.2.agent_card)) = s.cards
  ∧ (s.cards.map Prod.fst).Nodup
  ∧ ∀ p ∈ s.cards, p.2.name = p.1

theorem registryInv_initial : RegistryInv initialOrchestratorState :=
  ⟨rfl, List.nodup_nil, fun _ h => absurd h (List.not_mem_nil _)⟩

theorem registryInv_initStep (s : OrchestratorState) (a : String)
    (o : FetchOutcome) (h : RegistryInv s) : RegistryInv (initStep s a o) := by
  obtain ⟨hmap, hnd, hname⟩ := h
  cases o with
  | connectError m => exact ⟨hmap, hnd, hname⟩
  | otherError m => exact ⟨hmap, hnd, hname⟩
  | ok card =>
      refine ⟨?_, ?_, ?_⟩
      · show (dictInsert card.name ⟨card, a⟩ s.remote_agent_connections).map
            (fun q => (q.1, q.2.agent_card)) = dictInsert card.name card s.cards
        rw [dictInsert_map, hmap]
      · exact nodup_map_fst_dictInsert _ _ _ hnd
      · intro p hp
        rcases mem_dictInsert p _ _ _ hp with h | h
        · subst h; rfl
        · exact hname p h

theorem registryInv_asyncInitComponents (fetch : String → FetchOutcome)
    (addresses : List String) (s : OrchestratorState) (h : RegistryInv s) :
    RegistryInv (asyncInitComponents s fetch addresses) := by
  induction addresses generalizing s with
  | nil => exact h
  | cons a rest ih =>
      exact ih _ (registryInv_initStep s a (fetch a) h)

/-- The card that the last successful fetch with the given agent name
among `addresses` produced, if any: discovery's dict overwrites make this
the value that ends up under that name. -/
def lastCardNamed (fetch : String → FetchOutcome) (name : String) :
    List String → Option AgentCard
  | [] => none
  | a :: rest =>
      match lastCardNamed fetch name rest with
      | some c => some c
      | none =>
          match fetch a with
          | .ok c => if c.name = name then some c else none
          | .connectError _ => none
          | .otherError _ => none

theorem dictGet_initStep_cards (s : OrchestratorState) (a name : String)
    (o : FetchOutcome) :
    dictGet name (initStep s a o).cards
      = match o with
        | .ok c => if c.name = name then some c else dictGet name s.cards
        | .connectError _ => dictGet name s.cards
        | .otherError _ => dictGet name s.cards := by
  cases o with
  | ok c => simp [initStep, dictGet_dictInsert]
  | connectError m => rfl
  | otherError m => rfl

theorem dictGet_asyncInitComponents_cards (fetch : String → FetchOutcome)
    (name : String) (addresses : List String) (s : OrchestratorState) :
    dictGet name (asyncInitComponents s fetch addresses).cards
      = match lastCardNamed fetch name addresses with
        | some c => some c
        | none => dictGet name s.cards := by
  induction addresses generalizing s with
  | nil => rfl
  | cons a rest ih =>
      show dictGet name (asyncInitComponents (initStep s a (fetch a)) fetch rest).cards = _
      rw [ih]
      rcases hrest : lastCardNamed fetch name rest with _ | c
      · rw [dictGet_initStep_cards]
        rcases hf : fetch a with c | m | m
        · by_cases hn : c.name = name <;> simp [lastCardNamed, hrest, hf, hn]
        · simp [lastCardNamed, hrest, hf]
        · simp [lastCardNamed, hrest, hf]
      · simp [lastCardNamed, hrest]

/-! Supporting lemmas about artifact-part extraction and `send_message`. -/

theorem extractParts_foldl (arts : List Artifact) (acc : List Part) :
    arts.foldl
      (fun resp artifact =>
        if artifact.parts = [] then resp else resp ++ artifact.parts)
      acc
      = acc ++ (arts.map Artifact.parts).flatten := by
  induction arts generalizing acc with
  | nil => simp
  | cons a rest ih =>
      by_cases h : a.parts = []
      · simp [h, ih]
      · simp [h, ih]

theorem extractParts_eq_flatten (arts : List Artifact) :
    extractParts ⟨some arts⟩ = (arts.map Artifact.parts).flatten := by
  by_cases h : arts = []
  · subst h; rfl
  · simp only [extractParts, h, if_false, extractParts_foldl, List.nil_append]

theorem sendMessage_stateAfter (conns : List (String × RemoteAgentConnections))
    (state : List (String × String)) (uuidCounter : Nat)
    (agent_name task : String) (transport : MessagePayload → TransportOutcome) :
    (sendMessage conns state uuidCounter agent_name task transport).stateAfter
      = state := by
  rcases h : dictGet agent_name conns with _ | c
  · simp [sendMessage, h]
  · rcases hr : remoteSendMessage (transport (buildPayload state uuidCounter task))
      with r | m
    · cases r <;> simp [sendMessage, h, hr]
    · simp [sendMessage, h, hr]

/-! Claim theorems. -/

/-- Fetch outcomes for the discovery scenario of claim C5: two reachable
peers and one address that fails with a connection error. -/
def fetchScenarioC5 : String → FetchOutcome := fun a =>
  if a = "http://a-ok.example" then .ok cardKarley
  else if a = "http://b-ok.example" then .ok cardWeather
  else .connectError "connection refused"

/-- C5: for every list of discovery addresses, a per-address connection
failure or malformed card is skipped (the two `except` arms leave the
registries untouched and continue) and discovery completes without
raising; concretely, discovering over `[A_ok, A_down, B_ok]` yields a
registry containing entries for `A_ok` and `B_ok` only. -/
theorem c5_discovery_partial_failure_tolerant :
    (∀ (s : OrchestratorState) (fetch : String → FetchOutcome)
        (addresses : List String),
      asyncInitComponentsE fetch s addresses
        = .ok (asyncInitComponents s fetch addresses))
    ∧ (asyncInitComponents initialOrchestratorState fetchScenarioC5
        ["http://a-ok.example", "http://a-down.example", "http://b-ok.example"]
      = { remote_agent_connections :=
            [("Karley Agent", ⟨cardKarley, "http://a-ok.example"⟩),
             ("Weather_Agent", ⟨cardWeather, "http://b-ok.example"⟩)]
          cards :=
            [("Karley Agent", cardKarley),
             ("Weather_Agent", cardWeather)] }) :=
  ⟨fun s fetch addresses => asyncInitComponentsE_eq_ok fetch addresses s, rfl⟩

/-- C7: after discovery, the connections dict projected to its stored
cards is exactly the cards dict (hence the two dicts share the same keys
and each card has exactly one connection), the key list has no
duplicates, and every entry is keyed by its own card's `name`; moreover
the connection under each card's key carries that very card. -/
theorem c7_registry_connection_alignment (fetch : String → FetchOutcome)
    (addresses : List String) :
    ((asyncInitComponents initialOrchestratorState fetch addresses).remote_agent_connections.map
        (fun q => (q.1, q.2.agent_card))
      = (asyncInitComponents initialOrchestratorState fetch addresses).cards)
    ∧ ((asyncInitComponents initialOrchestratorState fetch addresses).remote_agent_connections.map
        Prod.fst
      = (asyncInitComponents initialOrchestratorState fetch addresses).cards.map Prod.fst)
    ∧ ((asyncInitComponents initialOrchestratorState fetch addresses).cards.map
        Prod.fst).Nodup
    ∧ ∀ p ∈ (asyncInitComponents initialOrchestratorState fetch addresses).cards,
        p.2.name = p.1
        ∧ ∃ conn,
            dictGet p.1
              (asyncInitComponents initialOrchestratorState fetch addresses).remote_agent_connections
              = some conn
            ∧ conn.agent_card = p.2 := by
  obtain ⟨hmap, hnd, hname⟩ :=
    registryInv_asyncInitComponents fetch addresses initialOrchestratorState
      registryInv_initial
  refine ⟨hmap, ?_, hnd, ?_⟩
  · calc (asyncInitComponents initialOrchestratorState fetch addresses).remote_agent_connections.map
          Prod.fst
        = ((asyncInitComponents initialOrchestratorState fetch addresses).remote_agent_connections.map
            (fun q => (q.1, q.2.agent_card))).map Prod.fst := by
          rw [List.map_map]; rfl
      _ = (asyncInitComponents initialOrchestratorState fetch addresses).cards.map
            Prod.fst := by rw [hmap]
  · intro p hp
    refine ⟨hname p hp, ?_⟩
    have hget : dictGet p.1 (asyncInitComponents initialOrchestratorState fetch addresses).cards
        = some p.2 := dictGet_of_mem_nodup p _ hnd hp
    rw [← hmap, dictGet_map] at hget
    rcases Option.map_eq_some.mp hget with ⟨conn, hconn, hcard⟩
    exact ⟨conn, hconn, hcard⟩

theorem c7_witness :
    ((asyncInitComponents initialOrchestratorState fetchScenarioC5
        ["http://a-ok.example", "http://a-down.example", "http://b-ok.example"]).remote_agent_connections.map
        (fun q => (q.1, q.2.agent_card))
      = (asyncInitComponents initialOrchestratorState fetchScenarioC5
          ["http://a-ok.example", "http://a-down.example", "http://b-ok.example"]).cards)
    ∧ cardKarley.name = "Karley Agent"
    ∧ ∃ conn,
        dictGet "Karley Agent"
          (asyncInitComponents initialOrchestratorState fetchScenarioC5
            ["http://a-ok.example", "http://a-down.example", "http://b-ok.example"]).remote_agent_connections
          = some conn
        ∧ conn.agent_card = cardKarley := by
  have h := c7_registry_connection_alignment fetchScenarioC5
    ["http://a-ok.example", "http://a-down.example", "http://b-ok.example"]
  have hmem : ("Karley Agent", cardKarley)
      ∈ (asyncInitComponents initialOrchestratorState fetchScenarioC5
          ["http://a-ok.example", "http://a-down.example", "http://b-ok.example"]).cards := by
    simp [asyncInitComponents, initialOrchestratorState, initStep, fetchScenarioC5,
      dictInsert, cardKarley, cardWeather]
  exact ⟨h.1, (h.2.2.2 _ hmem).1, (h.2.2.2 _ hmem).2⟩

/-- C8: discovery is idempotent — running the discovery loop a second time
against an unchanged set of peers (the same fetch outcomes) leaves the
name-to-card-fields mapping of the registry identical to one run. -/
theorem c8_discovery_idempotent (fetch : String → FetchOutcome)
    (addresses : List String) (name : String) :
    dictGet name
      (asyncInitComponents (asyncInitComponents initialOrchestratorState fetch addresses)
        fetch addresses).cards
      = dictGet name (asyncInitComponents initialOrchestratorState fetch addresses).cards := by
  rw [dictGet_asyncInitComponents_cards, dictGet_asyncInitComponents_cards]
  rcases h : lastCardNamed fetch name addresses with _ | c
  · simp [dictGet_asyncInitComponents_cards, h]
  · simp

/-- C9: when two discovery addresses return cards with the same agent
name, the registry ends up with exactly one entry for that name, holding
the card and the connection built from the later-processed address. -/
theorem c9_duplicate_name_last_writer_wins (fetch : String → FetchOutcome)
    (a₁ a₂ : String) (c₁ c₂ : AgentCard)
    (h₁ : fetch a₁ = .ok c₁) (h₂ : fetch a₂ = .ok c₂)
    (hname : c₁.name = c₂.name) :
    asyncInitComponents initialOrchestratorState fetch [a₁, a₂]
      = { remote_agent_connections := [(c₂.name, ⟨c₂, a₂⟩)]
          cards := [(c₂.name, c₂)] } := by
  simp [asyncInitComponents, initialOrchestratorState, initStep, h₁, h₂,
    dictInsert, hname]

/-- Fetch outcomes for the C9 witness: both addresses advertise the name
`Weather_Agent` with different card fields. -/
def fetchScenarioC9 : String → FetchOutcome := fun a =>
  if a = "http://first.example" then
    .ok { name := "Weather_Agent", description := "first card",
          url := "http://first.example" }
  else
    .ok { name := "Weather_Agent", description := "second card",
          url := "http://second.example" }

theorem c9_witness :
    asyncInitComponents initialOrchestratorState fetchScenarioC9
      ["http://first.example", "http://second.example"]
      = { remote_agent_connections :=
            [("Weather_Agent",
              ⟨{ name := "Weather_Agent", description := "second card",
                 url := "http://second.example" }, "http://second.example"⟩)]
          cards :=
            [("Weather_Agent",
              { name := "Weather_Agent", description := "second card",
                url := "http://second.example" })] } :=
  c9_duplicate_name_last_writer_wins fetchScenarioC9
    "http://first.example" "http://second.example" _ _ rfl rfl rfl

/-- C1, counterexample: two `send_message` calls with the same (empty)
tool-context state do not use the same `task_id`/`context_id`.  The first
call consumes uuid counters 0,1,2, so the immediately following call with
the unchanged state starts at counter 3; the generated defaults are never
written back to the state (the state after the first call is still `[]`),
so the second call draws fresh identifiers. -/
theorem c1_counterexample :
    ((sendMessage regWeather [] 0 "Weather_Agent" "what is the weather"
        transport72F).sent.map MessagePayload.taskId
      ≠ (sendMessage regWeather [] 3 "Weather_Agent" "what is the weather"
        transport72F).sent.map MessagePayload.taskId)
    ∧ ((sendMessage regWeather [] 0 "Weather_Agent" "what is the weather"
        transport72F).sent.map MessagePayload.contextId
      ≠ (sendMessage regWeather [] 3 "Weather_Agent" "what is the weather"
        transport72F).sent.map MessagePayload.contextId)
    ∧ (sendMessage regWeather [] 0 "Weather_Agent" "what is the weather"
        transport72F).stateAfter = [] := by
  refine ⟨?_, ?_, rfl⟩ <;> decide

/-- C1 as amended: the ids in the delegation payload are stable across
calls exactly when the tool-context state already holds `task_id` and
`context_id` — then any two calls reuse those stored values — and
`send_message` never writes the state, so generated defaults are not
persisted. -/
theorem c1_ids_stable_only_when_stored (state : List (String × String))
    (n₁ n₂ : Nat) (task₁ task₂ : String)
    (conns : List (String × RemoteAgentConnections))
    (agent_name task : String) (transport : MessagePayload → TransportOutcome)
    (tid cid : String)
    (ht : dictGet "task_id" state = some tid)
    (hc : dictGet "context_id" state = some cid) :
    ((buildPayload state n₁ task₁).taskId = tid
      ∧ (buildPayload state n₂ task₂).taskId = tid)
    ∧ ((buildPayload state n₁ task₁).contextId = cid
      ∧ (buildPayload state n₂ task₂).contextId = cid)
    ∧ (sendMessage conns state n₁ agent_name task transport).stateAfter = state := by
  refine ⟨⟨?_, ?_⟩, ⟨?_, ?_⟩, sendMessage_stateAfter _ _ _ _ _ _⟩ <;>
    simp [buildPayload, ht, hc]

/-- A tool-context state that already holds stable identifiers. -/
def stateWithIds : List (String × String) :=
  [("task_id", "task-1"), ("context_id", "ctx-1")]

theorem c1_witness :
    (((buildPayload stateWithIds 0 "first task").taskId = "task-1"
      ∧ (buildPayload stateWithIds 3 "second task").taskId = "task-1")
    ∧ ((buildPayload stateWithIds 0 "first task").contextId = "ctx-1"
      ∧ (buildPayload stateWithIds 3 "second task").contextId = "ctx-1")
    ∧ (sendMessage regWeather stateWithIds 0 "Weather_Agent" "first task"
        transport72F).stateAfter = stateWithIds) :=
  c1_ids_stable_only_when_stored stateWithIds 0 3 "first task" "second task"
    regWeather "Weather_Agent" "first task" transport72F "task-1" "ctx-1" rfl rfl

/-- C2: a transport error during the remote send (timeout, connection
refused, malformed response body) is converted by the send operation into
a non-success envelope and `send_message` returns the error string of
line 230 — it does not raise to its caller. -/
theorem c2_transport_error_becomes_failure
    (conns : List (String × RemoteAgentConnections))
    (state : List (String × String)) (n : Nat) (agent_name task : String)
    (transport : MessagePayload → TransportOutcome) (m : String)
    (hknown : (dictGet agent_name conns).isSome = true)
    (herr : transport (buildPayload state n task) = .timeout m
      ∨ transport (buildPayload state n task) = .connectionRefused m
      ∨ transport (buildPayload state n task) = .malformedBody m) :
    (sendMessage conns state n agent_name task transport).result
      = .ok (.errorMessage errorResponseMessage) := by
  rcases hg : dictGet agent_name conns with _ | c
  · rw [hg] at hknown; cases hknown
  · rcases herr with h | h | h <;> simp [sendMessage, hg, h, remoteSendMessage]

theorem c2_witness :
    (sendMessage regWeather [] 0 "Weather_Agent" "what is the weather"
      (fun _ => .timeout "read timed out")).result
      = .ok (.errorMessage errorResponseMessage) :=
  c2_transport_error_becomes_failure regWeather [] 0 "Weather_Agent"
    "what is the weather" (fun _ => .timeout "read timed out") "read timed out"
    (by decide) (Or.inl rfl)

/-- C3, counterexample: delegating to a name missing from the registry
does not return an error value into the tool result — `send_message`
raises a `ValueError` (an `Except.error` here) before any message is
sent. -/
theorem c3_counterexample :
    (sendMessage [] [] 0 "Ghost_Agent" "book a court" transport72F).result
      = .error (.valueError (unknownAgentMessage "Ghost_Agent" []))
    ∧ (sendMessage [] [] 0 "Ghost_Agent" "book a court" transport72F).sent
      = none := by
  exact ⟨rfl, rfl⟩

/-- C3 as amended: a delegation to an unregistered name is rejected
deterministically — `send_message` raises a `ValueError` whose message
names the unknown agent and the available agents, sends nothing, and
leaves the session state untouched; the rejection is an exception to the
caller, not a value returned into the oracle's context. -/
theorem c3_unknown_agent_raises_value_error
    (conns : List (String × RemoteAgentConnections))
    (state : List (String × String)) (n : Nat) (agent_name task : String)
    (transport : MessagePayload → TransportOutcome)
    (h : dictGet agent_name conns = none) :
    (sendMessage conns state n agent_name task transport).result
      = .error (.valueError (unknownAgentMessage agent_name conns))
    ∧ (sendMessage conns state n agent_name task transport).sent = none
    ∧ (sendMessage conns state n agent_name task transport).stateAfter = state := by
  refine ⟨?_, ?_, ?_⟩ <;> simp [sendMessage, h]

theorem c3_witness :
    (sendMessage regWeather [] 0 "Calendar_Agent" "list availabilities"
        transport72F).result
      = .error (.valueError (unknownAgentMessage "Calendar_Agent" regWeather))
    ∧ (sendMessage regWeather [] 0 "Calendar_Agent" "list availabilities"
        transport72F).sent = none
    ∧ (sendMessage regWeather [] 0 "Calendar_Agent" "list availabilities"
        transport72F).stateAfter = [] :=
  c3_unknown_agent_raises_value_error regWeather [] 0 "Calendar_Agent"
    "list availabilities" transport72F rfl

/-- C6: a delegation whose remote reply is a well-formed success response
wrapping a completed `Task` with artifacts yields the concatenation of the
parts of each artifact, in order; in particular artifacts
`[⟨[⟨"text","72F"⟩]⟩]` yield exactly `[⟨"text","72F"⟩]`. -/
theorem c6_success_task_parts_concatenated
    (conns : List (String × RemoteAgentConnections))
    (state : List (String × String)) (n : Nat) (agent_name task : String)
    (transport : MessagePayload → TransportOutcome)
    (conn : RemoteAgentConnections) (arts : List Artifact)
    (hknown : dictGet agent_name conns = some conn)
    (hresp : transport (buildPayload state n task)
      = .delivered (.success (.task ⟨some arts⟩))) :
    (sendMessage conns state n agent_name task transport).result
      = .ok (.parts ((arts.map Artifact.parts).flatten)) := by
  simp [sendMessage, hknown, hresp, remoteSendMessage, extractParts_eq_flatten]

theorem c6_witness :
    (sendMessage regWeather [] 0 "Weather_Agent" "weather in new york"
        transport72F).result
      = .ok (.parts [{ type := "text", text := "72F" }]) :=
  c6_success_task_parts_concatenated regWeather [] 0 "Weather_Agent"
    "weather in new york" transport72F
    ⟨cardWeather, "http://localhost:10003"⟩ [⟨[⟨"text", "72F"⟩]⟩] rfl rfl

/-- C10: a well-formed success response wrapping a `Task` with no
artifacts, or only artifacts without parts, makes `send_message` return
the empty part list (success with nothing extracted), not the error
string. -/
theorem c10_empty_artifacts_yield_empty_list
    (conns : List (String × RemoteAgentConnections))
    (state : List (String × String)) (n : Nat) (agent_name task : String)
    (transport : MessagePayload → TransportOutcome)
    (conn : RemoteAgentConnections) (ao : Option (List Artifact))
    (hknown : dictGet agent_name conns = some conn)
    (hresp : transport (buildPayload state n task)
      = .delivered (.success (.task ⟨ao⟩)))
    (hempty : ∀ arts, ao = some arts → ∀ a ∈ arts, a.parts = []) :
    (sendMessage conns state n agent_name task transport).result
      = .ok (.parts []) := by
  simp only [sendMessage, hknown, hresp, remoteSendMessage]
  rcases ao with _ | arts
  · rfl
  · have : (arts.map Artifact.parts).flatten = [] :=
      List.flatten_eq_nil_iff.mpr (by
        intro l hl
        rcases List.mem_map.mp hl with ⟨a, ha, hla⟩
        rw [← hla]
        exact hempty arts rfl a ha)
    simp [extractParts_eq_flatten, this]

theorem c10_witness :
    (sendMessage regWeather [] 0 "Weather_Agent" "weather in new york"
        (fun _ => .delivered (.success (.task ⟨some [⟨[]⟩]⟩)))).result
      = .ok (.parts []) :=
  c10_empty_artifacts_yield_empty_list regWeather [] 0 "Weather_Agent"
    "weather in new york" (fun _ => .delivered (.success (.task ⟨some [⟨[]⟩]⟩)))
    ⟨cardWeather, "http://localhost:10003"⟩ (some [⟨[]⟩]) rfl rfl
    (by
      intro arts h a ha
      cases h
      have : a = ⟨[]⟩ := by simpa using ha
      rw [this])

/-- C4: for a runner event sequence consisting of zero or more non-final
events followed by one final event — the runner's contract for a valid
`(query, session_id)` turn — `stream` yields exactly one progress dict
with `is_task_complete := false` per non-final event, then exactly one
terminal dict with `is_task_complete := true`, and the stream ends with
that terminal dict. -/
theorem c4_stream_progress_then_one_terminal
    (progressEvents : List AdkEvent) (finalEvent : AdkEvent)
    (hprog : ∀ e ∈ progressEvents, e.final = false)
    (hfin : finalEvent.final = true) :
    streamEvents (progressEvents ++ [finalEvent])
      = progressEvents.map
          (fun _ => { is_task_complete := false, payload := thinkingMessage })
        ++ [{ is_task_complete := true, payload := finalResponseText finalEvent }] := by
  simp only [streamEvents, List.map_append, List.map_cons, List.map_nil]
  congr 1
  · exact List.map_congr_left (fun e he => by simp [streamStep, hprog e he])
  · simp [streamStep, hfin]

theorem c4_witness :
    streamEvents
      [{ final := false, content := none },
       { final := true, content := some [some "All done"] }]
      = [{ is_task_complete := false, payload := thinkingMessage },
         { is_task_complete := true, payload := "All done" }] := by
  have h := c4_stream_progress_then_one_terminal
    [{ final := false, content := none }]
    { final := true, content := some [some "All done"] }
    (by intro e he; simp at he; rw [he]) rfl
  simpa using h

end Siruami
